import Mathlib

/-!
# Obstacles and the obstacle landscape (`sourceJS/obstacles.js`)

A shallow embedding of the classes `Obstacle`, `BoxObstacle`, `RoundObstacle` and
`Obstaclescape`, followed by theorems about the aggregation of safety values and
gradients over the obstacles of a landscape.

Modelling conventions.

* A JavaScript number is modelled exactly: `some q` is the rational `q`, `none` is `NaN`.
  `NaN` is kept because `offsetStates` creates it by itself when it reads past the end
  of `offset` (`x - undefined`).
* The results of the avoid-set palette (safety values) are rationals.
* A JavaScript array is a `List`; an out-of-range read `a[i]` is `a[i]? = none`
  (`undefined`).
* The classes `SafeSet`, `twoTwo`, `dubIntInterval_Set` and `dubinsCircle_Set` are defined
  elsewhere; the constructors take them as a parameter (`SetLibrary`).
* Calls made on the obstacles of a landscape are recorded in a log of `Call` events.
* The sentinel 100 is, in the words of the specification, larger than any attainable
  safety value (the source calls it preposterously large); `BelowSentinel` states this
  for the values the obstacles of a landscape report.
-/

namespace Obstacles

/-- A JavaScript number: `some q` is the number `q`, `none` is `NaN`. -/
abbrev Num := Option ℚ

/-- The subtraction `a - b` where `b` is the result of an array read: an out-of-range read
is `undefined`, and a difference with `undefined` or `NaN` is `NaN`. -/
def jsSub (a : Num) (b : Option Num) : Num :=
  match a, b with
  | some x, some (some y) => some (x - y)
  | _, _ => none

/-- Identifier of a precomputed safety function in a palette. -/
abbrev SetID := Nat

/-- The reachable-set palette an obstacle forwards its queries to (an external object,
used through its methods `value` and `gradV`). -/
structure AvoidSets where
  value : SetID → List Num → ℚ
  gradV : SetID → List Num → List Num

/-- A collision set (an external object, used through its method `value`). -/
structure CollisionSet where
  value : List Num → ℚ

/-- The collision-set classes instantiated by the constructors, defined outside
`obstacles.js`. -/
structure SetLibrary where
  SafeSet : CollisionSet
  twoTwo : CollisionSet → CollisionSet → CollisionSet
  dubIntInterval_Set : Num → CollisionSet
  dubinsCircle_Set : Num → CollisionSet

/-- The class of an obstacle object, with the fields its constructor adds. -/
inductive ObstacleClass where
  | Obstacle
  | BoxObstacle (ObW ObH : Num)
  | RoundObstacle (ObR trimmedObR : Num) (color : Nat)

/-- An obstacle object: the fields set by `Obstacle`'s constructor and the subclass part. -/
structure Obstacle where
  avoidSets : AvoidSets
  ObX : Num
  ObY : Num
  offset : List Num
  collisionSet : CollisionSet
  cls : ObstacleClass

/-- `new Obstacle(_ObX, _ObY, avoidSets)`. -/
def Obstacle.new (lib : SetLibrary) (_ObX _ObY : Num) (avoidSets : AvoidSets) : Obstacle :=
  { avoidSets := avoidSets
    ObX := _ObX
    ObY := _ObY
    offset := [_ObX, _ObY]
    collisionSet := lib.SafeSet
    cls := ObstacleClass.Obstacle }

/-- `new BoxObstacle(_ObX, _ObY, _ObW, _ObH, avoidSets)`: the super constructor, then the
assignments of the subclass constructor. -/
def BoxObstacle.new (lib : SetLibrary) (_ObX _ObY _ObW _ObH : Num) (avoidSets : AvoidSets) :
    Obstacle :=
  let this := Obstacle.new lib _ObX _ObY avoidSets
  { this with
    cls := ObstacleClass.BoxObstacle _ObW _ObH
    offset := [this.ObX, some 0, this.ObY, some 0]
    collisionSet := lib.twoTwo (lib.dubIntInterval_Set _ObW) (lib.dubIntInterval_Set _ObH) }

/-- `new RoundObstacle(_ObX, _ObY, _ObR, radiusTrim, avoidSets)`. -/
def RoundObstacle.new (lib : SetLibrary) (_ObX _ObY _ObR radiusTrim : Num)
    (avoidSets : AvoidSets) : Obstacle :=
  let this := Obstacle.new lib _ObX _ObY avoidSets
  { this with
    cls := ObstacleClass.RoundObstacle _ObR (jsSub _ObR (some radiusTrim)) 0x000000
    offset := [_ObX, _ObY, some 0]
    collisionSet := lib.dubinsCircle_Set _ObR }

/-- The field `trimmedObR` (`undefined` on an object that is not a `RoundObstacle`). -/
def Obstacle.trimmedObR (ob : Obstacle) : Option Num :=
  match ob.cls with
  | ObstacleClass.RoundObstacle _ t _ => some t
  | _ => none

/-- The arrays in scope in the body of `offsetStates`: the caller's `states`,
`this.offset`, and the local `offsetS`. -/
structure OffsetFrame where
  states : List Num
  offset : List Num
  offsetS : List Num

/-- One iteration of the loop of `offsetStates`:
`offsetS[curDim] -= this.offset[curDim]`. -/
def offsetStep (fr : OffsetFrame) (curDim : Nat) : OffsetFrame :=
  { fr with offsetS := fr.offsetS.modify (fun x => jsSub x fr.offset[curDim]?) curDim }

/-- The body of `offsetStates`: `offsetS = states.slice()`, then the loop over every
`curDim` below `states.length`. -/
def Obstacle.offsetStatesBody (ob : Obstacle) (states : List Num) : OffsetFrame :=
  (List.range states.length).foldl offsetStep
    { states := states, offset := ob.offset, offsetS := states }

/-- `offsetStates(states)`: the array `offsetS` returned by the body. -/
def Obstacle.offsetStates (ob : Obstacle) (states : List Num) : List Num :=
  (ob.offsetStatesBody states).offsetS

/-- `collisionSetValue(states)`. -/
def Obstacle.collisionSetValue (ob : Obstacle) (states : List Num) : ℚ :=
  ob.collisionSet.value (ob.offsetStates states)

/-- `value(setID, states)`. -/
def Obstacle.value (ob : Obstacle) (setID : SetID) (states : List Num) : ℚ :=
  ob.avoidSets.value setID (ob.offsetStates states)

/-- `gradV(setID, states)`. -/
def Obstacle.gradV (ob : Obstacle) (setID : SetID) (states : List Num) : List Num :=
  ob.avoidSets.gradV setID (ob.offsetStates states)

/-- A method call made by a landscape on the obstacle stored at index `obNum`. -/
inductive Call where
  | render (obNum : Nat)
  | renderAugmented (obNum : Nat) (pad : Num)
  | value (obNum : Nat) (setID : SetID) (states : List Num)
  | displayGrid (obNum : Nat) (setID : SetID) (graphics color : Nat)
      (currentState : List Num) (sweptStateX sweptStateY : Nat)
  deriving DecidableEq

/-- The landscape: the array of obstacles and the two arrays of access modifiers. -/
structure Obstaclescape where
  obstacles : List Obstacle
  obstacleDestroyed : List Bool
  obstacleUndetected : List Bool

/-- The test `flags[obNum] == false`: an out-of-range read is `undefined`, and
`undefined == false` is false. -/
def flagIsFalse (flags : List Bool) (obNum : Nat) : Bool :=
  flags[obNum]? == some false

/-- The guard of `value`, `gradV` and `displayGrid`:
`obstacleDestroyed[obNum] == false && obstacleUndetected[obNum] == false`. -/
def Obstaclescape.eligible (C : Obstaclescape) (obNum : Nat) : Bool :=
  flagIsFalse C.obstacleDestroyed obNum && flagIsFalse C.obstacleUndetected obNum

/-- `render()`: the log of the `render` calls made on the obstacles. -/
def Obstaclescape.render (C : Obstaclescape) : List Call :=
  C.obstacles.enum.foldl
    (fun log p =>
      if flagIsFalse C.obstacleDestroyed p.1 then log ++ [Call.render p.1] else log)
    []

/-- `renderAugmented(pad)`: the log of the `renderAugmented` calls made on the obstacles. -/
def Obstaclescape.renderAugmented (C : Obstaclescape) (pad : Num) : List Call :=
  C.obstacles.enum.foldl
    (fun log p =>
      if flagIsFalse C.obstacleDestroyed p.1 then log ++ [Call.renderAugmented p.1 pad]
      else log)
    []

/-- One iteration of the loop of `value` on the pair `(obNum, obstacles[obNum])`; the
state is `curMinValue` and the log of calls. -/
def Obstaclescape.valueStep (C : Obstaclescape) (setID : SetID) (states : List Num)
    (acc : ℚ × List Call) (p : Nat × Obstacle) : ℚ × List Call :=
  if C.eligible p.1 then
    let obsValue := p.2.value setID states
    (if obsValue < acc.1 then obsValue else acc.1, acc.2 ++ [Call.value p.1 setID states])
  else acc

/-- The body of `value(setID, states)`: the returned `curMinValue` and the calls made. -/
def Obstaclescape.valueRun (C : Obstaclescape) (setID : SetID) (states : List Num) :
    ℚ × List Call :=
  C.obstacles.enum.foldl (C.valueStep setID states) (100, [])

/-- `value(setID, states)`. -/
def Obstaclescape.value (C : Obstaclescape) (setID : SetID) (states : List Num) : ℚ :=
  (C.valueRun setID states).1

/-- The state of the loop of `gradV`. -/
structure GradState where
  curMinValue : ℚ
  dominantObstacle : Nat
  calls : List Call

/-- One iteration of the loop of `gradV` on the pair `(obNum, obstacles[obNum])`. -/
def Obstaclescape.gradStep (C : Obstaclescape) (setID : SetID) (states : List Num)
    (acc : GradState) (p : Nat × Obstacle) : GradState :=
  if C.eligible p.1 then
    let obsValue := p.2.value setID states
    let acc := { acc with calls := acc.calls ++ [Call.value p.1 setID states] }
    if obsValue < acc.curMinValue then
      { acc with curMinValue := obsValue, dominantObstacle := p.1 }
    else acc
  else acc

/-- The loop of `gradV(setID, states)`. -/
def Obstaclescape.gradLoop (C : Obstaclescape) (setID : SetID) (states : List Num) :
    GradState :=
  C.obstacles.enum.foldl (C.gradStep setID states)
    { curMinValue := 100, dominantObstacle := 0, calls := [] }

/-- `gradV(setID, states)`: `none` when `obstacles[dominantObstacle]` is `undefined`
(the method call on it throws). -/
def Obstaclescape.gradV (C : Obstaclescape) (setID : SetID) (states : List Num) :
    Option (List Num) :=
  match C.obstacles[(C.gradLoop setID states).dominantObstacle]? with
  | some ob => some (ob.gradV setID states)
  | none => none

/-- `displayGrid(setID, graphics, color, currentState, sweptStateX, sweptStateY)`: the log
of the `displayGrid` calls made on the obstacles, and the returned `0`. -/
def Obstaclescape.displayGrid (C : Obstaclescape) (setID : SetID) (graphics color : Nat)
    (currentState : List Num) (sweptStateX sweptStateY : Nat) : List Call × Nat :=
  (C.obstacles.enum.foldl
    (fun log p =>
      if C.eligible p.1 then
        log ++ [Call.displayGrid p.1 setID graphics color currentState sweptStateX
          sweptStateY]
      else log)
    [], 0)

/-- The assignment `flags[obNum] = v` at an index that is at most `flags.length`: it
overwrites entry `obNum`, or appends `v` when `obNum` is the length. (A larger index
would leave holes; the constructor assigns at the current length only.) -/
def arrayAssign (flags : List Bool) (obNum : Nat) (v : Bool) : List Bool :=
  if obNum < flags.length then flags.set obNum v else flags ++ [v]

/-- `new Obstaclescape(_obstacles)`: both arrays of access modifiers start empty and get
`false` at every `obNum` below `obstacles.length`. -/
def Obstaclescape.new (_obstacles : List Obstacle) : Obstaclescape :=
  (List.range _obstacles.length).foldl
    (fun self obNum =>
      { self with
        obstacleDestroyed := arrayAssign self.obstacleDestroyed obNum false
        obstacleUndetected := arrayAssign self.obstacleUndetected obNum false })
    { obstacles := _obstacles, obstacleDestroyed := [], obstacleUndetected := [] }

/-! ## The methods of the landscape in state-passing style

Each method is run on a state made of the receiver `this` and the locals of the method.
One turn of `for (let obNum = 0; obNum < this.obstacles.length; obNum++)` tests the bound
and reads `this.obstacles[obNum]` on the current receiver. -/

/-- The state of a running method: the receiver and the locals. -/
structure MethodState (σ : Type) where
  self : Obstaclescape
  locals : σ

/-- One turn of the loop of `render`. -/
def renderTurn (st : MethodState (List Call)) (obNum : Nat) : MethodState (List Call) :=
  match st.self.obstacles[obNum]? with
  | some _ =>
    { st with
      locals :=
        if flagIsFalse st.self.obstacleDestroyed obNum then
          st.locals ++ [Call.render obNum]
        else st.locals }
  | none => st

/-- `render()` as a state transformer. -/
def Obstaclescape.renderState (C : Obstaclescape) : MethodState (List Call) :=
  (List.range C.obstacles.length).foldl renderTurn { self := C, locals := [] }

/-- One turn of the loop of `renderAugmented`. -/
def renderAugmentedTurn (pad : Num) (st : MethodState (List Call)) (obNum : Nat) :
    MethodState (List Call) :=
  match st.self.obstacles[obNum]? with
  | some _ =>
    { st with
      locals :=
        if flagIsFalse st.self.obstacleDestroyed obNum then
          st.locals ++ [Call.renderAugmented obNum pad]
        else st.locals }
  | none => st

/-- `renderAugmented(pad)` as a state transformer. -/
def Obstaclescape.renderAugmentedState (C : Obstaclescape) (pad : Num) :
    MethodState (List Call) :=
  (List.range C.obstacles.length).foldl (renderAugmentedTurn pad) { self := C, locals := [] }

/-- One turn of the loop of `value`. -/
def valueTurn (setID : SetID) (states : List Num) (st : MethodState (ℚ × List Call))
    (obNum : Nat) : MethodState (ℚ × List Call) :=
  match st.self.obstacles[obNum]? with
  | some ob => { st with locals := st.self.valueStep setID states st.locals (obNum, ob) }
  | none => st

/-- `value(setID, states)` as a state transformer; the locals are `curMinValue` and the
log of calls. -/
def Obstaclescape.valueState (C : Obstaclescape) (setID : SetID) (states : List Num) :
    MethodState (ℚ × List Call) :=
  (List.range C.obstacles.length).foldl (valueTurn setID states)
    { self := C, locals := (100, []) }

/-- One turn of the loop of `gradV`. -/
def gradTurn (setID : SetID) (states : List Num) (st : MethodState GradState)
    (obNum : Nat) : MethodState GradState :=
  match st.self.obstacles[obNum]? with
  | some ob => { st with locals := st.self.gradStep setID states st.locals (obNum, ob) }
  | none => st

/-- `gradV(setID, states)` as a state transformer: the loop, then the returned
`this.obstacles[dominantObstacle].gradV(setID, states)` (`none` when that obstacle is
`undefined`). -/
def Obstaclescape.gradVState (C : Obstaclescape) (setID : SetID) (states : List Num) :
    MethodState (Option (List Num)) :=
  let st := (List.range C.obstacles.length).foldl (gradTurn setID states)
    { self := C, locals := { curMinValue := 100, dominantObstacle := 0, calls := [] } }
  { self := st.self
    locals :=
      match st.self.obstacles[st.locals.dominantObstacle]? with
      | some ob => some (ob.gradV setID states)
      | none => none }

/-- One turn of the loop of `displayGrid`. -/
def displayGridTurn (setID : SetID) (graphics color : Nat) (currentState : List Num)
    (sweptStateX sweptStateY : Nat) (st : MethodState (List Call)) (obNum : Nat) :
    MethodState (List Call) :=
  match st.self.obstacles[obNum]? with
  | some _ =>
    { st with
      locals :=
        if st.self.eligible obNum then
          st.locals ++ [Call.displayGrid obNum setID graphics color currentState
            sweptStateX sweptStateY]
        else st.locals }
  | none => st

/-- `displayGrid(...)` as a state transformer; the locals are the log of calls and the
returned `0`. -/
def Obstaclescape.displayGridState (C : Obstaclescape) (setID : SetID)
    (graphics color : Nat) (currentState : List Num) (sweptStateX sweptStateY : Nat) :
    MethodState (List Call × Nat) :=
  let st := (List.range C.obstacles.length).foldl
    (displayGridTurn setID graphics color currentState sweptStateX sweptStateY)
    { self := C, locals := [] }
  { self := st.self, locals := (st.locals, 0) }

/-! ## Specification-level notions -/

/-- The values `obstacles[i].value(setID, states)` reported by the eligible indices `i`. -/
def Obstaclescape.eligibleValues (C : Obstaclescape) (setID : SetID) (states : List Num) :
    Set ℚ :=
  {v | ∃ i ob, C.obstacles[i]? = some ob ∧ C.eligible i = true ∧ ob.value setID states = v}

/-- Index `j` is the first (lowest) eligible index whose value is the minimum of the values
of all eligible obstacles. -/
def Obstaclescape.IsFirstMinimum (C : Obstaclescape) (setID : SetID) (states : List Num)
    (j : Nat) : Prop :=
  ∃ ob, C.obstacles[j]? = some ob ∧ C.eligible j = true ∧
    ∀ i ob', C.obstacles[i]? = some ob' → C.eligible i = true →
      ob.value setID states ≤ ob'.value setID states ∧
      (i < j → ob.value setID states < ob'.value setID states)

/-- The convention on the sentinel: every safety value reported by an obstacle of the
landscape at `(setID, states)` is below 100. -/
def Obstaclescape.BelowSentinel (C : Obstaclescape) (setID : SetID) (states : List Num) :
    Prop :=
  ∀ (i : Nat) (ob : Obstacle), C.obstacles[i]? = some ob → ob.value setID states < 100

/-! ## Concrete objects used in the examples -/

/-- A palette whose value is `v` and whose gradient is `g` everywhere. -/
def constPalette (v : ℚ) (g : List Num) : AvoidSets :=
  { value := fun _ _ => v, gradV := fun _ _ => g }

/-- A library of collision sets whose values are all zero. -/
def zeroLibrary : SetLibrary :=
  { SafeSet := { value := fun _ => 0 }
    twoTwo := fun a _ => a
    dubIntInterval_Set := fun _ => { value := fun _ => 0 }
    dubinsCircle_Set := fun _ => { value := fun _ => 0 } }

/-- An obstacle at the origin reporting the value `v` and the gradient `g` everywhere. -/
def constObstacle (v : ℚ) (g : List Num) : Obstacle :=
  Obstacle.new zeroLibrary (some 0) (some 0) (constPalette v g)

/-- A landscape of constant obstacles with the given values, gradients and flags. -/
def constScape (obs : List (ℚ × List Num)) (destroyed undetected : List Bool) :
    Obstaclescape :=
  { obstacles := obs.map (fun p => constObstacle p.1 p.2)
    obstacleDestroyed := destroyed
    obstacleUndetected := undetected }

/-- Three eligible obstacles reporting 7, 4 and 4, with gradients `[0]`, `[1]`, `[2]`. -/
def tieScape : Obstaclescape :=
  constScape [(7, [some 0]), (4, [some 1]), (4, [some 2])] [false, false, false]
    [false, false, false]

/-- The scenario of the specification: a box obstacle with offset `[2, 0, 0, 0]` reporting
3 and a round obstacle with offset `[5, 5, 0]` reporting -1, both eligible. -/
def scenarioScape : Obstaclescape :=
  { obstacles :=
      [BoxObstacle.new zeroLibrary (some 2) (some 0) (some 1) (some 1) (constPalette 3 []),
        RoundObstacle.new zeroLibrary (some 5) (some 5) (some 1) (some 0)
          (constPalette (-1) [])]
    obstacleDestroyed := [false, false]
    obstacleUndetected := [false, false] }

/-- Three obstacles reporting 3, -1 and 5, the second one destroyed. -/
def flaggedScape : Obstaclescape :=
  constScape [(3, []), (-1, []), (5, [])] [false, true, false] [false, false, false]

/-- The landscape with `obstacles[k]` replaced by `ob`. -/
def Obstaclescape.replaceObstacle (C : Obstaclescape) (k : Nat) (ob : Obstacle) :
    Obstaclescape :=
  { C with obstacles := C.obstacles.set k ob }

/-- The landscape with index `k` removed from `obstacles` and from both flag arrays. -/
def Obstaclescape.removeIndex (C : Obstaclescape) (k : Nat) : Obstaclescape :=
  { obstacles := C.obstacles.eraseIdx k
    obstacleDestroyed := C.obstacleDestroyed.eraseIdx k
    obstacleUndetected := C.obstacleUndetected.eraseIdx k }

/-- The landscape whose three arrays are the components of a list of triples
`(obstacle, destroyed, undetected)`. -/
def Obstaclescape.ofTriples (l : List (Obstacle × Bool × Bool)) : Obstaclescape :=
  { obstacles := l.map (fun t => t.1)
    obstacleDestroyed := l.map (fun t => t.2.1)
    obstacleUndetected := l.map (fun t => t.2.2) }

/-- The landscape with one more obstacle, appended with both flags `false`. -/
def Obstaclescape.appendEligible (C : Obstaclescape) (ob : Obstacle) : Obstaclescape :=
  { obstacles := C.obstacles ++ [ob]
    obstacleDestroyed := C.obstacleDestroyed ++ [false]
    obstacleUndetected := C.obstacleUndetected ++ [false] }

/-- The landscape with `obstacleDestroyed[k]` set to `true`. -/
def Obstaclescape.markDestroyed (C : Obstaclescape) (k : Nat) : Obstaclescape :=
  { C with obstacleDestroyed := C.obstacleDestroyed.set k true }

/-- The landscape with `obstacleUndetected[k]` set to `true`. -/
def Obstaclescape.markUndetected (C : Obstaclescape) (k : Nat) : Obstaclescape :=
  { C with obstacleUndetected := C.obstacleUndetected.set k true }

/-! ## The loop of `value` -/

theorem valueStep_fst (C : Obstaclescape) (setID : SetID) (s : List Num)
    (acc : ℚ × List Call) (p : Nat × Obstacle) :
    (C.valueStep setID s acc p).1 =
      if C.eligible p.1 = true then
        (if p.2.value setID s < acc.1 then p.2.value setID s else acc.1)
      else acc.1 := by
  unfold Obstaclescape.valueStep
  by_cases h : C.eligible p.1 = true
  · rw [if_pos h, if_pos h]
  · rw [if_neg h, if_neg h]

theorem valueStep_fst_le (C : Obstaclescape) (setID : SetID) (s : List Num)
    (acc : ℚ × List Call) (p : Nat × Obstacle) :
    (C.valueStep setID s acc p).1 ≤ acc.1 := by
  rw [valueStep_fst]
  split_ifs with h1 h2
  · exact le_of_lt h2
  · exact le_refl _
  · exact le_refl _

theorem valueStep_fst_le_value (C : Obstaclescape) (setID : SetID) (s : List Num)
    (acc : ℚ × List Call) (p : Nat × Obstacle) (he : C.eligible p.1 = true) :
    (C.valueStep setID s acc p).1 ≤ p.2.value setID s := by
  rw [valueStep_fst, if_pos he]
  split_ifs with h2
  · exact le_refl _
  · exact not_lt.mp h2

theorem valueStep_fst_cases (C : Obstaclescape) (setID : SetID) (s : List Num)
    (acc : ℚ × List Call) (p : Nat × Obstacle) :
    (C.valueStep setID s acc p).1 = acc.1 ∨
      (C.eligible p.1 = true ∧ (C.valueStep setID s acc p).1 = p.2.value setID s) := by
  rw [valueStep_fst]
  split_ifs with h1 h2
  · exact Or.inr ⟨h1, rfl⟩
  · exact Or.inl rfl
  · exact Or.inl rfl

theorem foldl_valueStep_le_init (C : Obstaclescape) (setID : SetID) (s : List Num)
    (l : List (Nat × Obstacle)) (acc : ℚ × List Call) :
    (l.foldl (C.valueStep setID s) acc).1 ≤ acc.1 := by
  induction l generalizing acc with
  | nil => exact le_refl _
  | cons q l ih =>
    rw [List.foldl_cons]
    exact le_trans (ih _) (valueStep_fst_le C setID s acc q)

theorem foldl_valueStep_le_mem (C : Obstaclescape) (setID : SetID) (s : List Num)
    (l : List (Nat × Obstacle)) (acc : ℚ × List Call) (p : Nat × Obstacle) (hp : p ∈ l)
    (he : C.eligible p.1 = true) :
    (l.foldl (C.valueStep setID s) acc).1 ≤ p.2.value setID s := by
  induction l generalizing acc with
  | nil => cases hp
  | cons q l ih =>
    rw [List.foldl_cons]
    rcases List.mem_cons.mp hp with h | h
    · subst h
      exact le_trans (foldl_valueStep_le_init C setID s l _)
        (valueStep_fst_le_value C setID s acc p he)
    · exact ih _ h

theorem foldl_valueStep_attained (C : Obstaclescape) (setID : SetID) (s : List Num)
    (l : List (Nat × Obstacle)) (acc : ℚ × List Call) :
    (l.foldl (C.valueStep setID s) acc).1 = acc.1 ∨
      ∃ p ∈ l, C.eligible p.1 = true ∧
        (l.foldl (C.valueStep setID s) acc).1 = p.2.value setID s := by
  induction l generalizing acc with
  | nil => exact Or.inl rfl
  | cons q l ih =>
    rw [List.foldl_cons]
    rcases ih (C.valueStep setID s acc q) with h | ⟨p, hp, he, h⟩
    · rcases valueStep_fst_cases C setID s acc q with h' | ⟨he, h'⟩
      · exact Or.inl (h.trans h')
      · exact Or.inr ⟨q, List.mem_cons_self _ _, he, h.trans h'⟩
    · exact Or.inr ⟨p, List.mem_cons_of_mem _ hp, he, h⟩

/-- The value of a landscape is the least element of the sentinel together with the values
of the eligible obstacles. -/
theorem value_isLeast (C : Obstaclescape) (setID : SetID) (s : List Num) :
    IsLeast (insert 100 (C.eligibleValues setID s)) (C.value setID s) := by
  constructor
  · rcases foldl_valueStep_attained C setID s C.obstacles.enum (100, []) with h | ⟨p, hp, he, h⟩
    · exact Or.inl h
    · refine Or.inr ⟨p.1, p.2, ?_, he, h.symm⟩
      exact List.mk_mem_enum_iff_getElem?.mp hp
  · rintro v (rfl | ⟨i, ob, hi, he, rfl⟩)
    · exact foldl_valueStep_le_init C setID s C.obstacles.enum (100, [])
    · exact foldl_valueStep_le_mem C setID s C.obstacles.enum (100, []) (i, ob)
        (List.mk_mem_enum_iff_getElem?.mpr hi) he

theorem foldl_valueStep_of_not_eligible (C : Obstaclescape) (setID : SetID) (s : List Num)
    (l : List (Nat × Obstacle)) (acc : ℚ × List Call)
    (h : ∀ p ∈ l, C.eligible p.1 = false) :
    l.foldl (C.valueStep setID s) acc = acc := by
  induction l generalizing acc with
  | nil => rfl
  | cons q l ih =>
    rw [List.foldl_cons]
    have hq : C.valueStep setID s acc q = acc := by
      unfold Obstaclescape.valueStep
      rw [h q (List.mem_cons_self _ _)]
      rfl
    rw [hq]
    exact ih acc (fun p hp => h p (List.mem_cons_of_mem _ hp))

/-! ## Claims about `value` -/

/-- The value of a landscape is the minimum of the sentinel 100 and the eligible values;
it is the minimum of the eligible values alone as soon as one of them is at most 100. -/
theorem value_isLeast_eligible (C : Obstaclescape) (setID : SetID) (s : List Num)
    (h : ∃ v ∈ C.eligibleValues setID s, v ≤ 100) :
    IsLeast (C.eligibleValues setID s) (C.value setID s) := by
  have hl := value_isLeast C setID s
  obtain ⟨v, hv, hle⟩ := h
  refine ⟨?_, fun w hw => hl.2 (Or.inr hw)⟩
  rcases hl.1 with h | h
  · have hval : C.value setID s = v := le_antisymm (hl.2 (Or.inr hv)) (h ▸ hle)
    rw [hval]
    exact hv
  · exact h

/-- C1: in a landscape whose safety values are below the sentinel and which has at least
one eligible obstacle, `value(setID, s)` is exactly the minimum of the values
`obstacles[i].value(setID, s)` of the eligible indices `i`. -/
theorem C1_value_eq_min (C : Obstaclescape) (setID : SetID) (s : List Num)
    (hdom : C.BelowSentinel setID s)
    (helig : ∃ i, i < C.obstacles.length ∧ C.eligible i = true) :
    IsLeast (C.eligibleValues setID s) (C.value setID s) := by
  obtain ⟨i, hi, he⟩ := helig
  have hob : C.obstacles[i]? = some C.obstacles[i] := List.getElem?_eq_getElem hi
  exact value_isLeast_eligible C setID s
    ⟨C.obstacles[i].value setID s, ⟨i, C.obstacles[i], hob, he, rfl⟩,
      le_of_lt (hdom i _ hob)⟩

/-- C1 at the scenario of the specification: the box reports 3, the round obstacle -1,
and the value is their minimum -1. -/
theorem C1_value_eq_min_witness :
    scenarioScape.BelowSentinel 0 [some 2, some 0, some 0, some 0] ∧
      (∃ i, i < scenarioScape.obstacles.length ∧ scenarioScape.eligible i = true) ∧
      IsLeast (scenarioScape.eligibleValues 0 [some 2, some 0, some 0, some 0])
        (scenarioScape.value 0 [some 2, some 0, some 0, some 0]) ∧
      scenarioScape.value 0 [some 2, some 0, some 0, some 0] = -1 := by
  have hdom : scenarioScape.BelowSentinel 0 [some 2, some 0, some 0, some 0] := by
    intro i ob hi
    match i, hi with
    | 0, hi =>
      obtain rfl := Option.some.inj hi
      decide
    | 1, hi =>
      obtain rfl := Option.some.inj hi
      decide
    | i + 2, hi => simp [scenarioScape] at hi
  have helig : ∃ i, i < scenarioScape.obstacles.length ∧ scenarioScape.eligible i = true :=
    ⟨0, by decide, by decide⟩
  exact ⟨hdom, helig, C1_value_eq_min scenarioScape 0 _ hdom helig, by decide⟩

/-- C3: when no index of `obstacles` is eligible, `value` returns the sentinel 100 and
makes no call to the `value` method of any obstacle. -/
theorem C3_value_no_eligible (C : Obstaclescape) (setID : SetID) (s : List Num)
    (h : ∀ i, i < C.obstacles.length → C.eligible i = false) :
    C.valueRun setID s = (100, []) ∧ C.value setID s = 100 := by
  have hrun : C.valueRun setID s = (100, []) :=
    foldl_valueStep_of_not_eligible C setID s C.obstacles.enum (100, [])
      (fun p hp => h p.1 (List.fst_lt_of_mem_enum hp))
  exact ⟨hrun, by rw [Obstaclescape.value, hrun]⟩

/-- C3 at a landscape whose two obstacles are destroyed and undetected respectively. -/
theorem C3_value_no_eligible_witness :
    (∀ i, i < (constScape [(3, []), (-1, [])] [true, false] [false, true]).obstacles.length →
        (constScape [(3, []), (-1, [])] [true, false] [false, true]).eligible i = false) ∧
      (constScape [(3, []), (-1, [])] [true, false] [false, true]).valueRun 0 [] = (100, []) ∧
      (constScape [(3, []), (-1, [])] [true, false] [false, true]).value 0 [] = 100 :=
  ⟨by decide, C3_value_no_eligible _ 0 [] (by decide)⟩

/-- The value of a landscape equals the sentinel 100 if and only if no eligible obstacle
reports a value below 100. -/
theorem value_eq_sentinel_iff (C : Obstaclescape) (setID : SetID) (s : List Num) :
    C.value setID s = 100 ↔
      ∀ i ob, C.obstacles[i]? = some ob → C.eligible i = true → 100 ≤ ob.value setID s := by
  have hl := value_isLeast C setID s
  constructor
  · intro hv i ob hi he
    rw [← hv]
    exact hl.2 (Or.inr ⟨i, ob, hi, he, rfl⟩)
  · intro hall
    rcases hl.1 with h | ⟨i, ob, hi, he, hv⟩
    · exact h
    · exact le_antisymm (hl.2 (Or.inl rfl)) (hv ▸ hall i ob hi he)

/-- C4: in a landscape whose safety values are below the sentinel, `value(setID, s)`
equals the sentinel 100 if and only if no eligible obstacle exists. -/
theorem C4_sentinel_iff_no_eligible (C : Obstaclescape) (setID : SetID) (s : List Num)
    (hdom : C.BelowSentinel setID s) :
    C.value setID s = 100 ↔ ¬ ∃ i, i < C.obstacles.length ∧ C.eligible i = true := by
  rw [value_eq_sentinel_iff]
  constructor
  · rintro hall ⟨i, hi, he⟩
    have hob : C.obstacles[i]? = some C.obstacles[i] := List.getElem?_eq_getElem hi
    exact absurd (hdom i _ hob) (not_lt.mpr (hall i _ hob he))
  · intro hno i ob hi he
    have hlt : i < C.obstacles.length := by
      by_contra hge
      rw [List.getElem?_eq_none (not_lt.mp hge)] at hi
      cases hi
    exact absurd ⟨i, hlt, he⟩ hno

/-- C4 at a landscape with an eligible obstacle (values 3, -1, 5, the second destroyed)
and at one without (both obstacles flagged, value 100). -/
theorem C4_sentinel_iff_no_eligible_witness :
    flaggedScape.BelowSentinel 0 [] ∧
      (flaggedScape.value 0 [] = 100 ↔
        ¬ ∃ i, i < flaggedScape.obstacles.length ∧ flaggedScape.eligible i = true) ∧
      (constScape [(3, []), (-1, [])] [true, false] [false, true]).value 0 [] = 100 := by
  have hdom : flaggedScape.BelowSentinel 0 [] := by
    intro i ob hi
    match i, hi with
    | 0, hi =>
      obtain rfl := Option.some.inj hi
      decide
    | 1, hi =>
      obtain rfl := Option.some.inj hi
      decide
    | 2, hi =>
      obtain rfl := Option.some.inj hi
      decide
    | i + 3, hi => simp [flaggedScape, constScape] at hi
  exact ⟨hdom, C4_sentinel_iff_no_eligible flaggedScape 0 [] hdom, by decide⟩

/-- C5: the value of a landscape never exceeds the sentinel 100. -/
theorem C5_value_le_sentinel (C : Obstaclescape) (setID : SetID) (s : List Num) :
    C.value setID s ≤ 100 :=
  (value_isLeast C setID s).2 (Or.inl rfl)


/-! ## The loop of `gradV` -/

theorem gradStep_of_lt (C : Obstaclescape) (setID : SetID) (s : List Num) (acc : GradState)
    (p : Nat × Obstacle) (he : C.eligible p.1 = true)
    (hlt : p.2.value setID s < acc.curMinValue) :
    (C.gradStep setID s acc p).curMinValue = p.2.value setID s ∧
      (C.gradStep setID s acc p).dominantObstacle = p.1 := by
  unfold Obstaclescape.gradStep
  rw [if_pos he]
  simp only
  rw [if_pos hlt]
  exact ⟨rfl, rfl⟩

theorem gradStep_keep (C : Obstaclescape) (setID : SetID) (s : List Num) (acc : GradState)
    (p : Nat × Obstacle)
    (h : C.eligible p.1 = true → acc.curMinValue ≤ p.2.value setID s) :
    (C.gradStep setID s acc p).curMinValue = acc.curMinValue ∧
      (C.gradStep setID s acc p).dominantObstacle = acc.dominantObstacle := by
  unfold Obstaclescape.gradStep
  by_cases he : C.eligible p.1 = true
  · rw [if_pos he]
    simp only
    rw [if_neg (not_lt.mpr (h he))]
    exact ⟨rfl, rfl⟩
  · rw [if_neg he]
    exact ⟨rfl, rfl⟩

theorem gradStep_lt (C : Obstaclescape) (setID : SetID) (s : List Num) (acc : GradState)
    (p : Nat × Obstacle) (v : ℚ) (hv : v < acc.curMinValue)
    (h : C.eligible p.1 = true → v < p.2.value setID s) :
    v < (C.gradStep setID s acc p).curMinValue := by
  by_cases he : C.eligible p.1 = true
  · by_cases hlt : p.2.value setID s < acc.curMinValue
    · rw [(gradStep_of_lt C setID s acc p he hlt).1]
      exact h he
    · rw [(gradStep_keep C setID s acc p (fun _ => not_lt.mp hlt)).1]
      exact hv
  · rw [(gradStep_keep C setID s acc p (fun h' => absurd h' he)).1]
    exact hv

theorem foldl_gradStep_keep (C : Obstaclescape) (setID : SetID) (s : List Num)
    (l : List (Nat × Obstacle)) (acc : GradState)
    (h : ∀ p ∈ l, C.eligible p.1 = true → acc.curMinValue ≤ p.2.value setID s) :
    (l.foldl (C.gradStep setID s) acc).curMinValue = acc.curMinValue ∧
      (l.foldl (C.gradStep setID s) acc).dominantObstacle = acc.dominantObstacle := by
  induction l generalizing acc with
  | nil => exact ⟨rfl, rfl⟩
  | cons q l ih =>
    rw [List.foldl_cons]
    have hq := gradStep_keep C setID s acc q (h q (List.mem_cons_self _ _))
    have hrest := ih (C.gradStep setID s acc q) (fun p hp he => by
      rw [hq.1]
      exact h p (List.mem_cons_of_mem _ hp) he)
    exact ⟨hrest.1.trans hq.1, hrest.2.trans hq.2⟩

theorem foldl_gradStep_dominant (C : Obstaclescape) (setID : SetID) (s : List Num)
    (xs : List Obstacle) (n : Nat) (acc : GradState) (j : Nat) (ob : Obstacle)
    (hj : (j, ob) ∈ xs.enumFrom n) (he : C.eligible j = true)
    (hlt : ob.value setID s < acc.curMinValue)
    (hmin : ∀ p ∈ xs.enumFrom n, C.eligible p.1 = true →
      ob.value setID s ≤ p.2.value setID s ∧
        (p.1 < j → ob.value setID s < p.2.value setID s)) :
    ((xs.enumFrom n).foldl (C.gradStep setID s) acc).dominantObstacle = j := by
  induction xs generalizing n acc with
  | nil => cases hj
  | cons x xs ih =>
    rw [List.enumFrom_cons] at hj hmin ⊢
    rw [List.foldl_cons]
    rcases List.mem_cons.mp hj with h | h
    · have hjn : j = n := congrArg Prod.fst h
      have hob : ob = x := congrArg Prod.snd h
      subst hjn hob
      have hstep := gradStep_of_lt C setID s acc (j, ob) he hlt
      have hkeep := foldl_gradStep_keep C setID s (xs.enumFrom (j + 1))
        (C.gradStep setID s acc (j, ob)) (fun p hp hpe => by
          rw [hstep.1]
          exact (hmin p (List.mem_cons_of_mem _ hp) hpe).1)
      exact hkeep.2.trans hstep.2
    · have hnj : n < j := List.le_fst_of_mem_enumFrom h
      apply ih (n + 1) _ h
      · exact gradStep_lt C setID s acc (n, x) _ hlt
          (fun hne => (hmin (n, x) (List.mem_cons_self _ _) hne).2 hnj)
      · exact fun p hp hpe => hmin p (List.mem_cons_of_mem _ hp) hpe

/-! ## Claims about `gradV` -/

/-- When some eligible obstacle reports a value below the sentinel 100, `gradV` returns
the gradient of the obstacle at the first eligible index whose value is the minimum over
the eligible obstacles. -/
theorem gradV_first_minimum_of_below (C : Obstaclescape) (setID : SetID) (s : List Num)
    (j : Nat) (hj : C.IsFirstMinimum setID s j)
    (hlt : ∃ i ob, C.obstacles[i]? = some ob ∧ C.eligible i = true ∧
      ob.value setID s < 100) :
    ∃ ob, C.obstacles[j]? = some ob ∧ C.gradV setID s = some (ob.gradV setID s) := by
  obtain ⟨ob, hob, he, hmin⟩ := hj
  obtain ⟨i, ob', hi, hie, hv⟩ := hlt
  refine ⟨ob, hob, ?_⟩
  have hdom : (C.gradLoop setID s).dominantObstacle = j :=
    foldl_gradStep_dominant C setID s C.obstacles 0
      { curMinValue := 100, dominantObstacle := 0, calls := [] } j ob
      (List.mk_mem_enum_iff_getElem?.mpr hob) he
      (lt_of_le_of_lt (hmin i ob' hi hie).1 hv)
      (fun p hp hpe => hmin p.1 p.2 (List.mk_mem_enum_iff_getElem?.mp hp) hpe)
  unfold Obstaclescape.gradV
  rw [hdom, hob]

/-- C2: in a landscape whose safety values are below the sentinel, `gradV(setID, s)`
returns the gradient of `obstacles[j]`, where `j` is the first eligible index whose value
is the minimum over the eligible obstacles; a later eligible obstacle with an equal value
does not displace it. -/
theorem C2_gradV_first_min (C : Obstaclescape) (setID : SetID) (s : List Num) (j : Nat)
    (hdom : C.BelowSentinel setID s) (hj : C.IsFirstMinimum setID s j) :
    ∃ ob, C.obstacles[j]? = some ob ∧ C.gradV setID s = some (ob.gradV setID s) := by
  obtain ⟨ob, hob, he, _⟩ := id hj
  exact gradV_first_minimum_of_below C setID s j hj ⟨j, ob, hob, he, hdom j ob hob⟩

/-- C2 at the tie scenario: values 7, 4, 4 give the gradient of obstacle 1. -/
theorem C2_gradV_first_min_witness :
    tieScape.BelowSentinel 0 [] ∧ tieScape.IsFirstMinimum 0 [] 1 ∧
      tieScape.gradV 0 [] = some [some 1] := by
  have hdom : tieScape.BelowSentinel 0 [] := by
    intro i ob hi
    match i, hi with
    | 0, hi =>
      obtain rfl := Option.some.inj hi
      decide
    | 1, hi =>
      obtain rfl := Option.some.inj hi
      decide
    | 2, hi =>
      obtain rfl := Option.some.inj hi
      decide
    | i + 3, hi => simp [tieScape, constScape] at hi
  have hfirst : tieScape.IsFirstMinimum 0 [] 1 := by
    refine ⟨constObstacle 4 [some 1], rfl, by decide, ?_⟩
    intro i ob' hi _
    match i, hi with
    | 0, hi =>
      obtain rfl : constObstacle 7 [some 0] = ob' := Option.some.inj hi
      exact ⟨by decide, fun _ => by decide⟩
    | 1, hi =>
      obtain rfl : constObstacle 4 [some 1] = ob' := Option.some.inj hi
      exact ⟨by decide, fun hlt => absurd hlt (by decide)⟩
    | 2, hi =>
      obtain rfl : constObstacle 4 [some 2] = ob' := Option.some.inj hi
      exact ⟨by decide, fun hlt => absurd hlt (by decide)⟩
    | i + 3, hi => simp [tieScape, constScape] at hi
  obtain ⟨ob, hob, hg⟩ := C2_gradV_first_min tieScape 0 [] 1 hdom hfirst
  obtain rfl : constObstacle 4 [some 1] = ob := Option.some.inj hob
  exact ⟨hdom, hfirst, hg⟩

/-! ## Obstacles behind a set flag -/

theorem eligible_of_flag (C : Obstaclescape) (k : Nat)
    (hk : C.obstacleDestroyed[k]? = some true ∨ C.obstacleUndetected[k]? = some true) :
    C.eligible k = false := by
  unfold Obstaclescape.eligible flagIsFalse
  rcases hk with h | h <;> simp [h]

theorem eligible_removeIndex (C : Obstaclescape) (k i : Nat) :
    (C.removeIndex k).eligible i = C.eligible (if i < k then i else i + 1) := by
  unfold Obstaclescape.eligible flagIsFalse Obstaclescape.removeIndex
  simp only [List.getElem?_eraseIdx]
  split_ifs <;> rfl

theorem eligibleValues_replaceObstacle (C : Obstaclescape) (k : Nat)
    (hk : C.eligible k = false) (ob' : Obstacle) (setID : SetID) (s : List Num) :
    (C.replaceObstacle k ob').eligibleValues setID s = C.eligibleValues setID s := by
  ext v
  constructor
  · rintro ⟨i, ob, hi, he, hv⟩
    have hik : k ≠ i := by
      rintro rfl
      rw [show (C.replaceObstacle k ob').eligible k = C.eligible k from rfl, hk] at he
      cases he
    refine ⟨i, ob, ?_, he, hv⟩
    rw [Obstaclescape.replaceObstacle, List.getElem?_set_ne hik] at hi
    exact hi
  · rintro ⟨i, ob, hi, he, hv⟩
    have hik : k ≠ i := by
      rintro rfl
      rw [hk] at he
      cases he
    refine ⟨i, ob, ?_, he, hv⟩
    rw [Obstaclescape.replaceObstacle, List.getElem?_set_ne hik]
    exact hi

theorem eligibleValues_removeIndex (C : Obstaclescape) (k : Nat)
    (hk : C.eligible k = false) (setID : SetID) (s : List Num) :
    (C.removeIndex k).eligibleValues setID s = C.eligibleValues setID s := by
  ext v
  constructor
  · rintro ⟨i, ob, hi, he, hv⟩
    rw [eligible_removeIndex] at he
    rw [Obstaclescape.removeIndex, List.getElem?_eraseIdx] at hi
    exact ⟨if i < k then i else i + 1, ob, by split_ifs at hi ⊢ <;> exact hi, he, hv⟩
  · rintro ⟨i, ob, hi, he, hv⟩
    have hik : i ≠ k := by
      rintro rfl
      rw [hk] at he
      cases he
    rcases Nat.lt_or_gt_of_ne hik with hlt | hgt
    · refine ⟨i, ob, ?_, ?_, hv⟩
      · rw [Obstaclescape.removeIndex, List.getElem?_eraseIdx, if_pos hlt]
        exact hi
      · rw [eligible_removeIndex, if_pos hlt]
        exact he
    · have hnot : ¬ i - 1 < k := by omega
      have hsucc : i - 1 + 1 = i := by omega
      refine ⟨i - 1, ob, ?_, ?_, hv⟩
      · rw [Obstaclescape.removeIndex, List.getElem?_eraseIdx, if_neg hnot, hsucc]
        exact hi
      · rw [eligible_removeIndex, if_neg hnot, hsucc]
        exact he

/-- C6: an obstacle whose destroyed or undetected flag is set has no influence on `value`:
replacing it by any obstacle, or removing its index from the three arrays, leaves the
returned value unchanged. -/
theorem C6_value_ignores_flagged (C : Obstaclescape) (k : Nat)
    (hk : C.obstacleDestroyed[k]? = some true ∨ C.obstacleUndetected[k]? = some true)
    (ob' : Obstacle) (setID : SetID) (s : List Num) :
    (C.replaceObstacle k ob').value setID s = C.value setID s ∧
      (C.removeIndex k).value setID s = C.value setID s := by
  have hne := eligible_of_flag C k hk
  constructor
  · have h1 := value_isLeast (C.replaceObstacle k ob') setID s
    rw [eligibleValues_replaceObstacle C k hne] at h1
    exact h1.unique (value_isLeast C setID s)
  · have h1 := value_isLeast (C.removeIndex k) setID s
    rw [eligibleValues_removeIndex C k hne] at h1
    exact h1.unique (value_isLeast C setID s)

/-- C6 at a landscape whose obstacle 1 is destroyed. -/
theorem C6_value_ignores_flagged_witness :
    (flaggedScape.obstacleDestroyed[1]? = some true ∨
      flaggedScape.obstacleUndetected[1]? = some true) ∧
    (flaggedScape.replaceObstacle 1 (constObstacle (-50) [])).value 0 [] =
      flaggedScape.value 0 [] ∧
    (flaggedScape.removeIndex 1).value 0 [] = flaggedScape.value 0 [] :=
  ⟨Or.inl rfl,
    C6_value_ignores_flagged flaggedScape 1 (Or.inl rfl) (constObstacle (-50) []) 0 []⟩

/-- C7 fails on the code: with a single, destroyed obstacle, `gradV` returns the gradient
of that obstacle, so replacing it changes the result. -/
theorem C7_gradV_depends_on_destroyed_obstacle :
    (constScape [(3, [some 1])] [true] [false]).obstacleDestroyed[0]? = some true ∧
      (constScape [(3, [some 1])] [true] [false]).gradV 0 [] = some [some 1] ∧
      ((constScape [(3, [some 1])] [true] [false]).replaceObstacle 0
        (constObstacle 5 [some 2])).gradV 0 [] = some [some 2] := by
  decide

/-! ## Rendering -/

theorem foldl_render_log (flags : List Bool) (mk : Nat → Call) (xs : List Obstacle)
    (n : Nat) (log : List Call) :
    (xs.enumFrom n).foldl
        (fun log (p : Nat × Obstacle) =>
          if flagIsFalse flags p.1 then log ++ [mk p.1] else log) log =
      log ++ ((List.range' n xs.length).filter (fun i => flags[i]? == some false)).map mk := by
  induction xs generalizing n log with
  | nil => simp
  | cons x xs ih =>
    rw [List.enumFrom_cons, List.foldl_cons, ih, List.length_cons, List.range'_succ,
      List.filter_cons]
    by_cases h : flagIsFalse flags n = true
    · have h' : (flags[n]? == some false) = true := h
      simp [h, h']
    · have h' : ¬ (flags[n]? == some false) = true := h
      simp [h, h']

/-- C8: `render()` calls `render` on exactly the obstacles whose destroyed flag is false,
once each and in increasing index order, whatever their undetected flag is;
`renderAugmented(pad)` does the same with `renderAugmented(pad)`. In particular nothing is
rendered when every obstacle is destroyed, and an obstacle that is not destroyed is
rendered whether it is undetected or not. -/
theorem C8_render_calls (C : Obstaclescape) (pad : Num) :
    C.render =
        ((List.range C.obstacles.length).filter
          (fun i => C.obstacleDestroyed[i]? == some false)).map Call.render ∧
      C.renderAugmented pad =
        ((List.range C.obstacles.length).filter
          (fun i => C.obstacleDestroyed[i]? == some false)).map
            (fun i => Call.renderAugmented i pad) ∧
      (∀ undetected : List Bool,
        Obstaclescape.render { C with obstacleUndetected := undetected } = C.render ∧
        Obstaclescape.renderAugmented { C with obstacleUndetected := undetected } pad =
          C.renderAugmented pad) ∧
      ((∀ i, i < C.obstacles.length → C.obstacleDestroyed[i]? = some true) →
        C.render = [] ∧ C.renderAugmented pad = []) ∧
      (∀ i, i < C.obstacles.length → C.obstacleDestroyed[i]? = some false →
        Call.render i ∈ C.render ∧ Call.renderAugmented i pad ∈ C.renderAugmented pad) := by
  have hr : C.render =
      ((List.range C.obstacles.length).filter
        (fun i => C.obstacleDestroyed[i]? == some false)).map Call.render := by
    have h := foldl_render_log C.obstacleDestroyed Call.render C.obstacles 0 []
    rw [List.nil_append, ← List.range_eq_range'] at h
    exact h
  have ha : C.renderAugmented pad =
      ((List.range C.obstacles.length).filter
        (fun i => C.obstacleDestroyed[i]? == some false)).map
          (fun i => Call.renderAugmented i pad) := by
    have h := foldl_render_log C.obstacleDestroyed (fun i => Call.renderAugmented i pad)
      C.obstacles 0 []
    rw [List.nil_append, ← List.range_eq_range'] at h
    exact h
  refine ⟨hr, ha, fun _ => ⟨rfl, rfl⟩, ?_, ?_⟩
  · intro hall
    have hnil : (List.range C.obstacles.length).filter
        (fun i => C.obstacleDestroyed[i]? == some false) = [] := by
      rw [List.filter_eq_nil_iff]
      intro i hi
      rw [hall i (List.mem_range.mp hi)]
      decide
    rw [hr, ha, hnil]
    exact ⟨rfl, rfl⟩
  · intro i hi hd
    have hmem : i ∈ (List.range C.obstacles.length).filter
        (fun i => C.obstacleDestroyed[i]? == some false) := by
      rw [List.mem_filter, hd]
      exact ⟨List.mem_range.mpr hi, rfl⟩
    rw [hr, ha]
    exact ⟨List.mem_map_of_mem _ hmem, List.mem_map_of_mem _ hmem⟩

/-- C8 at a landscape with every obstacle destroyed, and at one whose obstacle 0 is
undetected but not destroyed. -/
theorem C8_render_calls_witness :
    (constScape [(3, []), (-1, []), (5, [])] [true, true, true]
        [false, true, false]).render = [] ∧
      (constScape [(3, []), (-1, []), (5, [])] [false, true, false]
        [true, true, false]).render = [Call.render 0, Call.render 2] ∧
      (constScape [(3, []), (-1, []), (5, [])] [false, true, false]
        [true, true, false]).renderAugmented (some 1) =
        [Call.renderAugmented 0 (some 1), Call.renderAugmented 2 (some 1)] := by
  refine ⟨?_, ?_, ?_⟩
  · rw [(C8_render_calls (constScape [(3, []), (-1, []), (5, [])] [true, true, true]
      [false, true, false]) none).1]
    decide
  · rw [(C8_render_calls (constScape [(3, []), (-1, []), (5, [])] [false, true, false]
      [true, true, false]) none).1]
    decide
  · rw [(C8_render_calls (constScape [(3, []), (-1, []), (5, [])] [false, true, false]
      [true, true, false]) (some 1)).2.1]
    decide

/-! ## `offsetStates` -/

theorem foldl_offsetStep (states offset : List Num) (m : Nat) :
    ((List.range m).foldl offsetStep
        { states := states, offset := offset, offsetS := states }).states = states ∧
      ((List.range m).foldl offsetStep
        { states := states, offset := offset, offsetS := states }).offset = offset ∧
      ∀ i, ((List.range m).foldl offsetStep
          { states := states, offset := offset, offsetS := states }).offsetS[i]? =
        if i < m then (states[i]?).map (fun x => jsSub x offset[i]?) else states[i]? := by
  induction m with
  | zero => simp
  | succ m ih =>
    rw [List.range_succ, List.foldl_append, List.foldl_cons, List.foldl_nil]
    obtain ⟨h1, h2, h3⟩ := ih
    refine ⟨h1, h2, fun i => ?_⟩
    simp only [offsetStep, List.getElem?_modify, h2, h3]
    by_cases him : m = i
    · subst him
      simp
    · have hne : i ≠ m := fun h => him h.symm
      by_cases hlt : i < m
      · have hlt' : i < m + 1 := by omega
        simp [him, hlt, hlt']
      · have hlt' : ¬ i < m + 1 := by omega
        simp [him, hlt, hlt']

theorem getElem?_offsetStates (ob : Obstacle) (s : List Num) (i : Nat) :
    (ob.offsetStates s)[i]? = (s[i]?).map (fun x => jsSub x ob.offset[i]?) := by
  unfold Obstacle.offsetStates Obstacle.offsetStatesBody
  rw [(foldl_offsetStep s ob.offset s.length).2.2 i]
  by_cases h : i < s.length
  · rw [if_pos h]
  · rw [if_neg h, List.getElem?_eq_none (not_lt.mp h)]
    rfl

theorem length_offsetStates (ob : Obstacle) (s : List Num) :
    (ob.offsetStates s).length = s.length := by
  by_contra hne
  rcases Nat.lt_or_gt_of_ne hne with h | h
  · have h1 := getElem?_offsetStates ob s (ob.offsetStates s).length
    rw [List.getElem?_eq_none (le_refl _), List.getElem?_eq_getElem h] at h1
    cases h1
  · have h1 := getElem?_offsetStates ob s s.length
    rw [List.getElem?_eq_none (le_refl s.length), List.getElem?_eq_getElem h] at h1
    cases h1

/-- C9: when `states` and `offset` have the same length, `offsetStates(states)` is a
vector of that length whose entry `i` is `states[i] - offset[i]` (the difference of the
two rationals when neither is `NaN`), and the body changes neither the caller's `states`
nor the obstacle's `offset`. -/
theorem C9_offsetStates (ob : Obstacle) (s : List Num) (h : s.length = ob.offset.length) :
    (ob.offsetStates s).length = s.length ∧
      ob.offsetStates s = List.zipWith (fun x y => jsSub x (some y)) s ob.offset ∧
      (∀ (i : Nat) (a b : ℚ), s[i]? = some (some a) → ob.offset[i]? = some (some b) →
        (ob.offsetStates s)[i]? = some (some (a - b))) ∧
      (ob.offsetStatesBody s).states = s ∧
      (ob.offsetStatesBody s).offset = ob.offset := by
  refine ⟨length_offsetStates ob s, ?_, ?_,
    (foldl_offsetStep s ob.offset s.length).1, (foldl_offsetStep s ob.offset s.length).2.1⟩
  · apply List.ext_getElem?
    intro i
    rw [getElem?_offsetStates, List.getElem?_zipWith]
    by_cases hi : i < s.length
    · have hi' : i < ob.offset.length := h ▸ hi
      rw [List.getElem?_eq_getElem hi, List.getElem?_eq_getElem hi']
      rfl
    · rw [List.getElem?_eq_none (not_lt.mp hi)]
      rfl
  · intro i a b ha hb
    rw [getElem?_offsetStates, ha, hb]
    rfl

/-- C9 at a box obstacle centred at `(2, 3)` and the state `[10, 1, 10, 4]`. -/
theorem C9_offsetStates_witness :
    [some 10, some 1, some 10, some 4].length =
        (BoxObstacle.new zeroLibrary (some 2) (some 3) (some 1) (some 1)
          (constPalette 0 [])).offset.length ∧
      (BoxObstacle.new zeroLibrary (some 2) (some 3) (some 1) (some 1)
          (constPalette 0 [])).offsetStates [some 10, some 1, some 10, some 4] =
        [some 8, some 1, some 7, some 4] := by
  refine ⟨rfl, ?_⟩
  rw [(C9_offsetStates (BoxObstacle.new zeroLibrary (some 2) (some 3) (some 1) (some 1)
    (constPalette 0 [])) [some 10, some 1, some 10, some 4] rfl).2.1]
  norm_num [BoxObstacle.new, Obstacle.new, jsSub]

theorem jsSub_zero (a : Num) : jsSub a (some (some 0)) = a := by
  cases a with
  | none => rfl
  | some x => simp [jsSub]

/-- C10: a `BoxObstacle` at `(x, y)` has offset `[x, 0, y, 0]` and offsets a state
`[px, vx, py, vy]` to `[px - x, vx, py - y, vy]`; a `RoundObstacle` at `(x, y)` has offset
`[x, y, 0]`, offsets `[px, py, th]` to `[px - x, py - y, th]`, and its `trimmedObR` is
`r - trim`. -/
theorem C10_box_round_offsets (lib : SetLibrary) (A : AvoidSets)
    (x y w h r trim px vx py vy th : Num) :
    (BoxObstacle.new lib x y w h A).offset = [x, some 0, y, some 0] ∧
      (BoxObstacle.new lib x y w h A).offsetStates [px, vx, py, vy] =
        [jsSub px (some x), vx, jsSub py (some y), vy] ∧
      (RoundObstacle.new lib x y r trim A).offset = [x, y, some 0] ∧
      (RoundObstacle.new lib x y r trim A).offsetStates [px, py, th] =
        [jsSub px (some x), jsSub py (some y), th] ∧
      (RoundObstacle.new lib x y r trim A).trimmedObR = some (jsSub r (some trim)) := by
  refine ⟨rfl, ?_, rfl, ?_, rfl⟩
  · have h1 : (BoxObstacle.new lib x y w h A).offsetStates [px, vx, py, vy] =
        [jsSub px (some x), jsSub vx (some (some 0)), jsSub py (some y),
          jsSub vy (some (some 0))] := rfl
    rw [h1, jsSub_zero, jsSub_zero]
  · have h1 : (RoundObstacle.new lib x y r trim A).offsetStates [px, py, th] =
        [jsSub px (some x), jsSub py (some y), jsSub th (some (some 0))] := rfl
    rw [h1, jsSub_zero]

/-! ## The constructor of the landscape -/

theorem arrayAssign_replicate (k : Nat) :
    arrayAssign (List.replicate k false) k false = List.replicate (k + 1) false := by
  unfold arrayAssign
  rw [List.length_replicate, if_neg (Nat.lt_irrefl k), List.replicate_succ']

theorem foldl_new (L : List Obstacle) (k : Nat) :
    (List.range k).foldl
        (fun (self : Obstaclescape) obNum =>
          { self with
            obstacleDestroyed := arrayAssign self.obstacleDestroyed obNum false
            obstacleUndetected := arrayAssign self.obstacleUndetected obNum false })
        { obstacles := L, obstacleDestroyed := [], obstacleUndetected := [] } =
      { obstacles := L
        obstacleDestroyed := List.replicate k false
        obstacleUndetected := List.replicate k false } := by
  induction k with
  | zero => rfl
  | succ k ih =>
    rw [List.range_succ, List.foldl_append, ih, List.foldl_cons, List.foldl_nil]
    simp only [arrayAssign_replicate]

theorem new_eq (L : List Obstacle) :
    Obstaclescape.new L =
      { obstacles := L
        obstacleDestroyed := List.replicate L.length false
        obstacleUndetected := List.replicate L.length false } :=
  foldl_new L L.length

theorem eligible_new (L : List Obstacle) (i : Nat) (hi : i < L.length) :
    (Obstaclescape.new L).eligible i = true := by
  rw [new_eq]
  simp [Obstaclescape.eligible, flagIsFalse, List.getElem?_replicate, hi]

theorem eligibleValues_new (L : List Obstacle) (setID : SetID) (s : List Num) :
    (Obstaclescape.new L).eligibleValues setID s = {v | ∃ ob ∈ L, ob.value setID s = v} := by
  ext v
  constructor
  · rintro ⟨i, ob, hi, -, hv⟩
    rw [new_eq] at hi
    exact ⟨ob, List.mem_iff_getElem?.mpr ⟨i, hi⟩, hv⟩
  · rintro ⟨ob, hob, hv⟩
    obtain ⟨i, hi⟩ := List.mem_iff_getElem?.mp hob
    have hlt : i < L.length := by
      by_contra hge
      rw [List.getElem?_eq_none (not_lt.mp hge)] at hi
      cases hi
    refine ⟨i, ob, ?_, eligible_new L i hlt, hv⟩
    rw [new_eq]
    exact hi

/-- C11: a newly constructed landscape keeps the given obstacles, both flag arrays have
the length of `obstacles` and hold `false` everywhere, every index is eligible, and
`value` aggregates over all the obstacles given: it is the least of the sentinel 100 and
the values of all of them. -/
theorem C11_new_all_eligible (L : List Obstacle) (setID : SetID) (s : List Num) :
    (Obstaclescape.new L).obstacles = L ∧
      (Obstaclescape.new L).obstacleDestroyed = List.replicate L.length false ∧
      (Obstaclescape.new L).obstacleUndetected = List.replicate L.length false ∧
      (Obstaclescape.new L).obstacleDestroyed.length = L.length ∧
      (Obstaclescape.new L).obstacleUndetected.length = L.length ∧
      (∀ i, i < L.length → (Obstaclescape.new L).eligible i = true) ∧
      IsLeast (insert 100 {v | ∃ ob ∈ L, ob.value setID s = v})
        ((Obstaclescape.new L).value setID s) := by
  refine ⟨?_, ?_, ?_, ?_, ?_, eligible_new L, ?_⟩
  · rw [new_eq]
  · rw [new_eq]
  · rw [new_eq]
  · rw [new_eq]
    exact List.length_replicate _ _
  · rw [new_eq]
    exact List.length_replicate _ _
  · rw [← eligibleValues_new L setID s]
    exact value_isLeast _ setID s

/-- C11 at two obstacles reporting 3 and -1: both flags arrays are `[false, false]` and
the value is -1. -/
theorem C11_new_all_eligible_witness :
    (Obstaclescape.new [constObstacle 3 [], constObstacle (-1) []]).obstacleDestroyed =
        [false, false] ∧
      (Obstaclescape.new [constObstacle 3 [], constObstacle (-1) []]).obstacleUndetected =
        [false, false] ∧
      (Obstaclescape.new [constObstacle 3 [], constObstacle (-1) []]).value 0 [] = -1 := by
  have h := C11_new_all_eligible [constObstacle 3 [], constObstacle (-1) []] 0 []
  refine ⟨h.2.1, h.2.2.1, ?_⟩
  decide

/-! ## The queries of one obstacle -/

/-- C12: for an obstacle of any class, `value` and `gradV` forward to the palette and
`collisionSetValue` to the collision set, all at `offsetStates(states)`; for objects made
by the three constructors the palette is the one given to the constructor and the
collision set is the one the constructor created. -/
theorem C12_obstacle_queries_forward (lib : SetLibrary) (A : AvoidSets) (ob : Obstacle)
    (x y w h r trim : Num) (setID : SetID) (s : List Num) :
    (ob.value setID s = ob.avoidSets.value setID (ob.offsetStates s) ∧
      ob.gradV setID s = ob.avoidSets.gradV setID (ob.offsetStates s) ∧
      ob.collisionSetValue s = ob.collisionSet.value (ob.offsetStates s)) ∧
    ((Obstacle.new lib x y A).value setID s =
        A.value setID ((Obstacle.new lib x y A).offsetStates s) ∧
      (Obstacle.new lib x y A).gradV setID s =
        A.gradV setID ((Obstacle.new lib x y A).offsetStates s) ∧
      (Obstacle.new lib x y A).collisionSetValue s =
        lib.SafeSet.value ((Obstacle.new lib x y A).offsetStates s)) ∧
    ((BoxObstacle.new lib x y w h A).value setID s =
        A.value setID ((BoxObstacle.new lib x y w h A).offsetStates s) ∧
      (BoxObstacle.new lib x y w h A).gradV setID s =
        A.gradV setID ((BoxObstacle.new lib x y w h A).offsetStates s) ∧
      (BoxObstacle.new lib x y w h A).collisionSetValue s =
        (lib.twoTwo (lib.dubIntInterval_Set w) (lib.dubIntInterval_Set h)).value
          ((BoxObstacle.new lib x y w h A).offsetStates s)) ∧
    ((RoundObstacle.new lib x y r trim A).value setID s =
        A.value setID ((RoundObstacle.new lib x y r trim A).offsetStates s) ∧
      (RoundObstacle.new lib x y r trim A).gradV setID s =
        A.gradV setID ((RoundObstacle.new lib x y r trim A).offsetStates s) ∧
      (RoundObstacle.new lib x y r trim A).collisionSetValue s =
        (lib.dubinsCircle_Set r).value
          ((RoundObstacle.new lib x y r trim A).offsetStates s)) :=
  ⟨⟨rfl, rfl, rfl⟩, ⟨rfl, rfl, rfl⟩, ⟨rfl, rfl, rfl⟩, ⟨rfl, rfl, rfl⟩⟩

/-! ## The calls made by `displayGrid` and by `value` -/

theorem foldl_guard_log (g : Nat → Bool) (mk : Nat → Call) (xs : List Obstacle)
    (n : Nat) (log : List Call) :
    (xs.enumFrom n).foldl
        (fun log (p : Nat × Obstacle) => if g p.1 then log ++ [mk p.1] else log) log =
      log ++ ((List.range' n xs.length).filter g).map mk := by
  induction xs generalizing n log with
  | nil => simp
  | cons x xs ih =>
    rw [List.enumFrom_cons, List.foldl_cons, ih, List.length_cons, List.range'_succ,
      List.filter_cons]
    by_cases h : g n = true
    · simp [h]
    · simp [h]

theorem foldl_valueStep_snd (C : Obstaclescape) (setID : SetID) (s : List Num)
    (xs : List Obstacle) (n : Nat) (acc : ℚ × List Call) :
    ((xs.enumFrom n).foldl (C.valueStep setID s) acc).2 =
      acc.2 ++ ((List.range' n xs.length).filter C.eligible).map
        (fun i => Call.value i setID s) := by
  induction xs generalizing n acc with
  | nil => simp
  | cons x xs ih =>
    rw [List.enumFrom_cons, List.foldl_cons, ih, List.length_cons, List.range'_succ,
      List.filter_cons]
    by_cases h : C.eligible n = true
    · simp [Obstaclescape.valueStep, h]
    · simp [Obstaclescape.valueStep, h]

/-- C14: `displayGrid` calls `displayGrid`, with its own arguments, on exactly the
obstacles whose two flags are false, once each and in increasing index order, and returns
0; these are the indices on which `value` calls `value`. -/
theorem C14_displayGrid_calls (C : Obstaclescape) (setID : SetID) (graphics color : Nat)
    (currentState : List Num) (sweptStateX sweptStateY : Nat) (s : List Num) :
    (C.displayGrid setID graphics color currentState sweptStateX sweptStateY).1 =
        ((List.range C.obstacles.length).filter
          (fun i => C.obstacleDestroyed[i]? == some false &&
            C.obstacleUndetected[i]? == some false)).map
          (fun i => Call.displayGrid i setID graphics color currentState sweptStateX
            sweptStateY) ∧
      (C.displayGrid setID graphics color currentState sweptStateX sweptStateY).2 = 0 ∧
      (C.valueRun setID s).2 =
        ((List.range C.obstacles.length).filter
          (fun i => C.obstacleDestroyed[i]? == some false &&
            C.obstacleUndetected[i]? == some false)).map
          (fun i => Call.value i setID s) := by
  refine ⟨?_, rfl, ?_⟩
  · have h := foldl_guard_log C.eligible
      (fun i => Call.displayGrid i setID graphics color currentState sweptStateX
        sweptStateY) C.obstacles 0 []
    rw [List.nil_append, ← List.range_eq_range'] at h
    exact h
  · have h := foldl_valueStep_snd C setID s C.obstacles 0 (100, [])
    rw [List.nil_append, ← List.range_eq_range'] at h
    exact h

/-- C14 at three obstacles of which the second is destroyed and the third undetected:
only obstacle 0 is visited, by `displayGrid` and by `value`. -/
theorem C14_displayGrid_calls_witness :
    ((constScape [(3, []), (-1, []), (5, [])] [false, true, false]
        [false, false, true]).displayGrid 0 0 0 [] 0 1).1 =
        [Call.displayGrid 0 0 0 0 [] 0 1] ∧
      ((constScape [(3, []), (-1, []), (5, [])] [false, true, false]
        [false, false, true]).valueRun 0 []).2 = [Call.value 0 0 []] := by
  have h := C14_displayGrid_calls (constScape [(3, []), (-1, []), (5, [])]
    [false, true, false] [false, false, true]) 0 0 0 [] 0 1 []
  refine ⟨?_, ?_⟩
  · rw [h.1]
    decide
  · rw [h.2.2]
    decide

/-! ## `gradV` without a dominant obstacle, and its agreement with `value` -/

/-- C15: in a landscape with at least one obstacle in which no eligible obstacle reports
a value below 100, `gradV` returns the gradient of `obstacles[0]`, whatever the flags of
index 0 are. -/
theorem C15_gradV_defaults_to_first (C : Obstaclescape) (setID : SetID) (s : List Num)
    (ob0 : Obstacle) (h0 : C.obstacles[0]? = some ob0)
    (hall : ∀ i ob, C.obstacles[i]? = some ob → C.eligible i = true →
      100 ≤ ob.value setID s) :
    C.gradV setID s = some (ob0.gradV setID s) := by
  have hdom : (C.gradLoop setID s).dominantObstacle = 0 :=
    (foldl_gradStep_keep C setID s C.obstacles.enum
      { curMinValue := 100, dominantObstacle := 0, calls := [] }
      (fun p hp he => hall p.1 p.2 (List.mk_mem_enum_iff_getElem?.mp hp) he)).2
  unfold Obstaclescape.gradV
  rw [hdom, h0]

/-- C15 at a landscape whose obstacle 0 is destroyed and whose obstacle 1 is
undetected: `gradV` returns the gradient of obstacle 0. -/
theorem C15_gradV_defaults_to_first_witness :
    (constScape [(3, [some 1]), (4, [some 2])] [true, false] [false, true]).obstacles[0]? =
        some (constObstacle 3 [some 1]) ∧
      (constScape [(3, [some 1]), (4, [some 2])] [true, false] [false, true]).eligible 0 =
        false ∧
      (constScape [(3, [some 1]), (4, [some 2])] [true, false] [false, true]).gradV 0 [] =
        some [some 1] := by
  refine ⟨rfl, by decide, ?_⟩
  refine C15_gradV_defaults_to_first (constScape [(3, [some 1]), (4, [some 2])]
    [true, false] [false, true]) 0 [] (constObstacle 3 [some 1]) rfl ?_
  intro i ob hi he
  match i, hi, he with
  | 0, _, he => exact absurd he (by decide)
  | 1, _, he => exact absurd he (by decide)
  | i + 2, hi, _ => simp [constScape] at hi

theorem gradStep_curMinValue (C : Obstaclescape) (setID : SetID) (s : List Num)
    (acc : GradState) (accv : ℚ × List Call) (p : Nat × Obstacle)
    (h : acc.curMinValue = accv.1) :
    (C.gradStep setID s acc p).curMinValue = (C.valueStep setID s accv p).1 := by
  rw [valueStep_fst, ← h]
  by_cases he : C.eligible p.1 = true
  · rw [if_pos he]
    by_cases hlt : p.2.value setID s < acc.curMinValue
    · rw [if_pos hlt, (gradStep_of_lt C setID s acc p he hlt).1]
    · rw [if_neg hlt, (gradStep_keep C setID s acc p (fun _ => not_lt.mp hlt)).1]
  · rw [if_neg he, (gradStep_keep C setID s acc p (fun h' => absurd h' he)).1]

theorem foldl_gradStep_curMinValue (C : Obstaclescape) (setID : SetID) (s : List Num)
    (l : List (Nat × Obstacle)) (acc : GradState) (accv : ℚ × List Call)
    (h : acc.curMinValue = accv.1) :
    (l.foldl (C.gradStep setID s) acc).curMinValue =
      (l.foldl (C.valueStep setID s) accv).1 := by
  induction l generalizing acc accv with
  | nil => exact h
  | cons q l ih =>
    rw [List.foldl_cons, List.foldl_cons]
    exact ih _ _ (gradStep_curMinValue C setID s acc accv q h)

theorem gradLoop_curMinValue (C : Obstaclescape) (setID : SetID) (s : List Num) :
    (C.gradLoop setID s).curMinValue = C.value setID s :=
  foldl_gradStep_curMinValue C setID s C.obstacles.enum _ (100, []) rfl

theorem foldl_gradStep_dominant_inv (C : Obstaclescape) (setID : SetID) (s : List Num)
    (l : List (Nat × Obstacle)) (hl : ∀ p ∈ l, C.obstacles[p.1]? = some p.2)
    (acc : GradState)
    (hacc : acc.curMinValue < 100 → C.eligible acc.dominantObstacle = true ∧
      ∃ ob, C.obstacles[acc.dominantObstacle]? = some ob ∧
        ob.value setID s = acc.curMinValue) :
    (l.foldl (C.gradStep setID s) acc).curMinValue < 100 →
      C.eligible (l.foldl (C.gradStep setID s) acc).dominantObstacle = true ∧
      ∃ ob, C.obstacles[(l.foldl (C.gradStep setID s) acc).dominantObstacle]? = some ob ∧
        ob.value setID s = (l.foldl (C.gradStep setID s) acc).curMinValue := by
  induction l generalizing acc with
  | nil => exact hacc
  | cons q l ih =>
    rw [List.foldl_cons]
    apply ih (fun p hp => hl p (List.mem_cons_of_mem _ hp))
    by_cases he : C.eligible q.1 = true
    · by_cases hlt : q.2.value setID s < acc.curMinValue
      · obtain ⟨h1, h2⟩ := gradStep_of_lt C setID s acc q he hlt
        rw [h1, h2]
        exact fun _ => ⟨he, q.2, hl q (List.mem_cons_self _ _), rfl⟩
      · obtain ⟨h1, h2⟩ := gradStep_keep C setID s acc q (fun _ => not_lt.mp hlt)
        rw [h1, h2]
        exact hacc
    · obtain ⟨h1, h2⟩ := gradStep_keep C setID s acc q (fun h' => absurd h' he)
      rw [h1, h2]
      exact hacc

/-- C16: when the value of a landscape is below 100, the dominant index found by `gradV`
is an eligible index, the obstacle stored there reports exactly `value(setID, s)`, and
`gradV` returns the gradient of that obstacle. -/
theorem C16_gradV_agrees_with_value (C : Obstaclescape) (setID : SetID) (s : List Num)
    (hlt : C.value setID s < 100) :
    C.eligible (C.gradLoop setID s).dominantObstacle = true ∧
      ∃ ob, C.obstacles[(C.gradLoop setID s).dominantObstacle]? = some ob ∧
        ob.value setID s = C.value setID s ∧
        C.gradV setID s = some (ob.gradV setID s) := by
  have hinv : (C.gradLoop setID s).curMinValue < 100 →
      C.eligible (C.gradLoop setID s).dominantObstacle = true ∧
      ∃ ob, C.obstacles[(C.gradLoop setID s).dominantObstacle]? = some ob ∧
        ob.value setID s = (C.gradLoop setID s).curMinValue :=
    foldl_gradStep_dominant_inv C setID s C.obstacles.enum
      (fun p hp => List.mk_mem_enum_iff_getElem?.mp hp)
      { curMinValue := 100, dominantObstacle := 0, calls := [] }
      (fun h => absurd h (lt_irrefl _))
  have hcur := gradLoop_curMinValue C setID s
  rw [hcur] at hinv
  obtain ⟨he, ob, hob, hv⟩ := hinv hlt
  refine ⟨he, ob, hob, hv, ?_⟩
  unfold Obstaclescape.gradV
  rw [hob]

/-- C16 at the tie scenario: the value is 4, the dominant index is 1, and obstacle 1 is
eligible and reports 4. -/
theorem C16_gradV_agrees_with_value_witness :
    tieScape.value 0 [] < 100 ∧
      tieScape.eligible (tieScape.gradLoop 0 []).dominantObstacle = true ∧
      ∃ ob, tieScape.obstacles[(tieScape.gradLoop 0 []).dominantObstacle]? = some ob ∧
        ob.value 0 [] = tieScape.value 0 [] ∧
        tieScape.gradV 0 [] = some (ob.gradV 0 []) :=
  ⟨by decide, C16_gradV_agrees_with_value tieScape 0 [] (by decide)⟩

/-- C17: on a landscape without obstacles `gradV` yields no gradient (the read of
`obstacles[0]` is `undefined` and the call on it fails), while `value` returns 100. -/
theorem C17_gradV_empty (destroyed undetected : List Bool) (setID : SetID) (s : List Num) :
    Obstaclescape.gradV
        { obstacles := [], obstacleDestroyed := destroyed, obstacleUndetected := undetected }
        setID s = none ∧
      Obstaclescape.value
        { obstacles := [], obstacleDestroyed := destroyed, obstacleUndetected := undetected }
        setID s = 100 :=
  ⟨rfl, rfl⟩

/-! ## The methods leave the receiver unchanged -/

theorem foldl_turn_eq {σ : Type} (turn : MethodState σ → Nat → MethodState σ)
    (body : σ → Nat × Obstacle → σ) (C : Obstaclescape)
    (hturn : ∀ (a : σ) (obNum : Nat) (ob : Obstacle), C.obstacles[obNum]? = some ob →
      turn { self := C, locals := a } obNum = { self := C, locals := body a (obNum, ob) })
    (a : σ) (n : Nat) (hn : n ≤ C.obstacles.length) :
    (List.range n).foldl turn { self := C, locals := a } =
      { self := C, locals := (C.obstacles.take n).enum.foldl body a } := by
  induction n with
  | zero => rfl
  | succ n ih =>
    have hlt : n < C.obstacles.length := hn
    have hob : C.obstacles[n]? = some C.obstacles[n] := List.getElem?_eq_getElem hlt
    rw [List.range_succ, List.foldl_append, ih (Nat.le_of_lt hlt), List.foldl_cons,
      List.foldl_nil, hturn _ n _ hob, List.take_succ, hob, Option.toList_some,
      List.enum_append, List.foldl_append, List.length_take, Nat.min_eq_left (Nat.le_of_lt hlt),
      List.enumFrom_singleton, List.foldl_cons, List.foldl_nil]

theorem foldl_turn_full {σ : Type} (turn : MethodState σ → Nat → MethodState σ)
    (body : σ → Nat × Obstacle → σ) (C : Obstaclescape)
    (hturn : ∀ (a : σ) (obNum : Nat) (ob : Obstacle), C.obstacles[obNum]? = some ob →
      turn { self := C, locals := a } obNum = { self := C, locals := body a (obNum, ob) })
    (a : σ) :
    (List.range C.obstacles.length).foldl turn { self := C, locals := a } =
      { self := C, locals := C.obstacles.enum.foldl body a } := by
  rw [foldl_turn_eq turn body C hturn a C.obstacles.length (le_refl _), List.take_length]

/-- C13: run as state transformers, `render`, `renderAugmented`, `value`, `gradV` and
`displayGrid` end with the receiver they started with (the same `obstacles`,
`obstacleDestroyed` and `obstacleUndetected`), and with the results of the methods. -/
theorem C13_methods_keep_receiver (C : Obstaclescape) (setID : SetID) (s : List Num)
    (pad : Num) (graphics color : Nat) (currentState : List Num)
    (sweptStateX sweptStateY : Nat) :
    C.renderState = { self := C, locals := C.render } ∧
      C.renderAugmentedState pad = { self := C, locals := C.renderAugmented pad } ∧
      C.valueState setID s = { self := C, locals := C.valueRun setID s } ∧
      C.gradVState setID s = { self := C, locals := C.gradV setID s } ∧
      C.displayGridState setID graphics color currentState sweptStateX sweptStateY =
        { self := C
          locals := C.displayGrid setID graphics color currentState sweptStateX
            sweptStateY } := by
  refine ⟨?_, ?_, ?_, ?_, ?_⟩
  · exact foldl_turn_full renderTurn
      (fun log p =>
        if flagIsFalse C.obstacleDestroyed p.1 then log ++ [Call.render p.1] else log) C
      (fun a obNum ob h => by simp only [renderTurn, h]) []
  · exact foldl_turn_full (renderAugmentedTurn pad)
      (fun log p =>
        if flagIsFalse C.obstacleDestroyed p.1 then log ++ [Call.renderAugmented p.1 pad]
        else log) C
      (fun a obNum ob h => by simp only [renderAugmentedTurn, h]) []
  · exact foldl_turn_full (valueTurn setID s) (C.valueStep setID s) C
      (fun a obNum ob h => by simp only [valueTurn, h]) (100, [])
  · have h := foldl_turn_full (gradTurn setID s) (C.gradStep setID s) C
      (fun a obNum ob h => by simp only [gradTurn, h])
      { curMinValue := 100, dominantObstacle := 0, calls := [] }
    unfold Obstaclescape.gradVState
    simp only [h]
    rfl
  · have h := foldl_turn_full
      (displayGridTurn setID graphics color currentState sweptStateX sweptStateY)
      (fun log p =>
        if C.eligible p.1 then
          log ++ [Call.displayGrid p.1 setID graphics color currentState sweptStateX
            sweptStateY]
        else log) C
      (fun a obNum ob h => by simp only [displayGridTurn, h]) []
    unfold Obstaclescape.displayGridState
    simp only [h]
    rfl

/-! ## Order of the obstacles and monotonicity in the flags -/

theorem eligibleValues_ofTriples (l : List (Obstacle × Bool × Bool)) (setID : SetID)
    (s : List Num) :
    (Obstaclescape.ofTriples l).eligibleValues setID s =
      {v | ∃ t ∈ l, t.2.1 = false ∧ t.2.2 = false ∧ t.1.value setID s = v} := by
  ext v
  constructor
  · rintro ⟨i, ob, hi, he, hv⟩
    simp only [Obstaclescape.ofTriples, List.getElem?_map] at hi
    simp only [Obstaclescape.eligible, flagIsFalse, Obstaclescape.ofTriples,
      List.getElem?_map] at he
    cases hli : l[i]? with
    | none => rw [hli] at hi; cases hi
    | some t =>
      rw [hli] at hi he
      obtain rfl : t.1 = ob := Option.some.inj hi
      simp only [Option.map_some', Bool.and_eq_true, beq_iff_eq, Option.some.injEq] at he
      exact ⟨t, List.mem_iff_getElem?.mpr ⟨i, hli⟩, he.1, he.2, hv⟩
  · rintro ⟨t, ht, h1, h2, hv⟩
    obtain ⟨i, hi⟩ := List.mem_iff_getElem?.mp ht
    refine ⟨i, t.1, ?_, ?_, hv⟩
    · simp [Obstaclescape.ofTriples, hi]
    · simp [Obstaclescape.eligible, flagIsFalse, Obstaclescape.ofTriples, hi, h1, h2]

/-- Every landscape whose three arrays have the same length is the landscape of its
list of triples. -/
theorem ofTriples_zip (C : Obstaclescape)
    (hd : C.obstacleDestroyed.length = C.obstacles.length)
    (hu : C.obstacleUndetected.length = C.obstacles.length) :
    Obstaclescape.ofTriples
      (C.obstacles.zip (C.obstacleDestroyed.zip C.obstacleUndetected)) = C := by
  have hlen : (C.obstacleDestroyed.zip C.obstacleUndetected).length = C.obstacles.length := by
    rw [List.length_zip, hd, hu, Nat.min_self]
  have h1 : (C.obstacles.zip (C.obstacleDestroyed.zip C.obstacleUndetected)).map
      (fun t => t.1) = C.obstacles :=
    List.map_fst_zip _ _ (le_of_eq hlen.symm)
  have h2 : (C.obstacles.zip (C.obstacleDestroyed.zip C.obstacleUndetected)).map
      (fun t => t.2) = C.obstacleDestroyed.zip C.obstacleUndetected :=
    List.map_snd_zip _ _ (le_of_eq hlen)
  have h3 : (C.obstacles.zip (C.obstacleDestroyed.zip C.obstacleUndetected)).map
      (fun t => t.2.1) = C.obstacleDestroyed := by
    have h := congrArg (List.map Prod.fst) h2
    rw [List.map_map, List.map_fst_zip _ _ (le_of_eq (hd.trans hu.symm))] at h
    exact h
  have h4 : (C.obstacles.zip (C.obstacleDestroyed.zip C.obstacleUndetected)).map
      (fun t => t.2.2) = C.obstacleUndetected := by
    have h := congrArg (List.map Prod.snd) h2
    rw [List.map_map, List.map_snd_zip _ _ (le_of_eq (hu.trans hd.symm))] at h
    exact h
  unfold Obstaclescape.ofTriples
  rw [h1, h3, h4]

/-- C18: `value` does not depend on the order of the obstacles: two landscapes whose
triples `(obstacle, destroyed, undetected)` are permutations of one another have the same
value. -/
theorem C18_value_perm (l l' : List (Obstacle × Bool × Bool)) (h : l.Perm l')
    (setID : SetID) (s : List Num) :
    (Obstaclescape.ofTriples l').value setID s =
      (Obstaclescape.ofTriples l).value setID s := by
  have h1 := value_isLeast (Obstaclescape.ofTriples l') setID s
  have h2 := value_isLeast (Obstaclescape.ofTriples l) setID s
  have hset : (Obstaclescape.ofTriples l').eligibleValues setID s =
      (Obstaclescape.ofTriples l).eligibleValues setID s := by
    rw [eligibleValues_ofTriples, eligibleValues_ofTriples]
    ext v
    constructor
    · rintro ⟨t, ht, hrest⟩
      exact ⟨t, h.mem_iff.mpr ht, hrest⟩
    · rintro ⟨t, ht, hrest⟩
      exact ⟨t, h.mem_iff.mp ht, hrest⟩
  rw [hset] at h1
  exact h1.unique h2

/-- C18 at three obstacles reporting 3, -1 (destroyed) and 2, and the same with the
first two swapped: both values are 2. -/
theorem C18_value_perm_witness :
    [(constObstacle 3 [], false, false), (constObstacle (-1) [], true, false),
        (constObstacle 2 [], false, false)].Perm
      [(constObstacle (-1) [], true, false), (constObstacle 3 [], false, false),
        (constObstacle 2 [], false, false)] ∧
    (Obstaclescape.ofTriples
      [(constObstacle (-1) [], true, false), (constObstacle 3 [], false, false),
        (constObstacle 2 [], false, false)]).value 0 [] =
    (Obstaclescape.ofTriples
      [(constObstacle 3 [], false, false), (constObstacle (-1) [], true, false),
        (constObstacle 2 [], false, false)]).value 0 [] :=
  ⟨List.Perm.swap _ _ _, C18_value_perm _ _ (List.Perm.swap _ _ _) 0 []⟩

theorem flagIsFalse_of_set_true (flags : List Bool) (k i : Nat)
    (h : flagIsFalse (flags.set k true) i = true) : flagIsFalse flags i = true := by
  unfold flagIsFalse at h ⊢
  by_cases hki : k = i
  · subst hki
    rw [List.getElem?_set] at h
    simp only [if_true] at h
    split_ifs at h <;> simp at h
  · rw [List.getElem?_set_ne hki] at h
    exact h

theorem flagIsFalse_append (flags extra : List Bool) (i : Nat)
    (h : flagIsFalse flags i = true) : flagIsFalse (flags ++ extra) i = true := by
  unfold flagIsFalse at h ⊢
  have hlt : i < flags.length := by
    by_contra hge
    rw [List.getElem?_eq_none (not_lt.mp hge)] at h
    simp at h
  rw [List.getElem?_append_left hlt]
  exact h

theorem eligibleValues_markDestroyed_subset (C : Obstaclescape) (k : Nat) (setID : SetID)
    (s : List Num) :
    (C.markDestroyed k).eligibleValues setID s ⊆ C.eligibleValues setID s := by
  rintro v ⟨i, ob, hi, he, hv⟩
  refine ⟨i, ob, hi, ?_, hv⟩
  simp only [Obstaclescape.eligible, Obstaclescape.markDestroyed, Bool.and_eq_true] at he ⊢
  exact ⟨flagIsFalse_of_set_true _ k i he.1, he.2⟩

theorem eligibleValues_markUndetected_subset (C : Obstaclescape) (k : Nat) (setID : SetID)
    (s : List Num) :
    (C.markUndetected k).eligibleValues setID s ⊆ C.eligibleValues setID s := by
  rintro v ⟨i, ob, hi, he, hv⟩
  refine ⟨i, ob, hi, ?_, hv⟩
  simp only [Obstaclescape.eligible, Obstaclescape.markUndetected, Bool.and_eq_true] at he ⊢
  exact ⟨he.1, flagIsFalse_of_set_true _ k i he.2⟩

theorem eligibleValues_subset_appendEligible (C : Obstaclescape) (ob : Obstacle)
    (setID : SetID) (s : List Num) :
    C.eligibleValues setID s ⊆ (C.appendEligible ob).eligibleValues setID s := by
  rintro v ⟨i, ob', hi, he, hv⟩
  have hlt : i < C.obstacles.length := by
    by_contra hge
    rw [List.getElem?_eq_none (not_lt.mp hge)] at hi
    cases hi
  refine ⟨i, ob', ?_, ?_, hv⟩
  · simp only [Obstaclescape.appendEligible]
    rw [List.getElem?_append_left hlt]
    exact hi
  · simp only [Obstaclescape.eligible, Obstaclescape.appendEligible, Bool.and_eq_true] at he ⊢
    exact ⟨flagIsFalse_append _ _ i he.1, flagIsFalse_append _ _ i he.2⟩

/-- C19: `value` is monotone in the flags: turning `obstacleDestroyed[k]` or
`obstacleUndetected[k]` from `false` to `true` never decreases it, and appending one more
obstacle with both flags `false` never increases it. -/
theorem C19_value_monotone (C : Obstaclescape) (k : Nat) (ob : Obstacle) (setID : SetID)
    (s : List Num) :
    (C.obstacleDestroyed[k]? = some false →
        C.value setID s ≤ (C.markDestroyed k).value setID s) ∧
      (C.obstacleUndetected[k]? = some false →
        C.value setID s ≤ (C.markUndetected k).value setID s) ∧
      (C.appendEligible ob).value setID s ≤ C.value setID s := by
  refine ⟨fun _ => ?_, fun _ => ?_, ?_⟩
  · exact (value_isLeast (C.markDestroyed k) setID s).mono (value_isLeast C setID s)
      (Set.insert_subset_insert (eligibleValues_markDestroyed_subset C k setID s))
  · exact (value_isLeast (C.markUndetected k) setID s).mono (value_isLeast C setID s)
      (Set.insert_subset_insert (eligibleValues_markUndetected_subset C k setID s))
  · exact (value_isLeast C setID s).mono (value_isLeast (C.appendEligible ob) setID s)
      (Set.insert_subset_insert (eligibleValues_subset_appendEligible C ob setID s))

/-- C19 at the tie scenario (value 4): destroying obstacle 1 or hiding obstacle 2 keeps
the value at least 4, and appending an obstacle reporting 1 keeps it at most 4. -/
theorem C19_value_monotone_witness :
    tieScape.obstacleDestroyed[1]? = some false ∧
      tieScape.obstacleUndetected[2]? = some false ∧
      tieScape.value 0 [] ≤ (tieScape.markDestroyed 1).value 0 [] ∧
      (tieScape.appendEligible (constObstacle 1 [])).value 0 [] ≤ tieScape.value 0 [] :=
  ⟨rfl, rfl, (C19_value_monotone tieScape 1 (constObstacle 1 []) 0 []).1 rfl,
    (C19_value_monotone tieScape 1 (constObstacle 1 []) 0 []).2.2⟩

end Obstacles
